import Mathlib

/-!
Verification of the tbclient thermal-camera client: shallow embedding of the
spot registry (ThermalSpotManager), spot validation (MeasurementSpot), the
RPC parser and handler, spot persistence, and the MQTT reconnect-delay logic,
translated from the C++ sources under src/.  Machine `int` values are modelled
as `Int`, C++ `float`/`double` temperatures as `Rat` (exact arithmetic), the
`std::map<std::string, MeasurementSpot>` registry as an association list, and
randomness as an explicit variation parameter.
-/

attribute [local semireducible] Rat.add Rat.sub

namespace TBClient

/-- Model of std::stoi on a string of decimal digits (the only shape reaching it in
ThermalSpotManager::createSpot, which calls it after validateSpotId). -/
def stoiDigits (s : String) : Int :=
  s.data.foldl (fun acc c => acc * 10 + ((c.toNat : Int) - 48)) 0

/-- Spot runtime states, from include/thermal/measurement_spot.h. -/
inductive SpotState where
  | INACTIVE
  | ACTIVE
  | READING
  | ERROR
deriving DecidableEq

/-- A thermal measurement spot, from include/thermal/measurement_spot.h.
Field defaults mirror the C++ member initializers. -/
structure MeasurementSpot where
  id : Int := 0
  name : String := ""
  x : Int := 0
  y : Int := 0
  min_temp : Rat := 20
  max_temp : Rat := 100
  noise_factor : Rat := mkRat 1 10
  enabled : Bool := true
  state : SpotState := SpotState.INACTIVE
deriving DecidableEq

/-- MeasurementSpot::is_ready (measurement_spot.cpp:125): enabled and ACTIVE. -/
def MeasurementSpot.is_ready (s : MeasurementSpot) : Bool :=
  s.enabled && s.state == SpotState.ACTIVE

/-- One character of the name pattern `[a-zA-Z0-9 _-]` used by
MeasurementSpot::validate (measurement_spot.cpp:18). -/
def nameCharAllowed (c : Char) : Bool :=
  c.isAlpha || c.isDigit || c == ' ' || c == '_' || c == '-'

/-- The regex `^[a-zA-Z0-9 _-]+$` of measurement_spot.cpp:18: at least one
character, all from the allowed set. -/
def nameMatchesPattern (s : String) : Bool :=
  !s.isEmpty && s.toList.all nameCharAllowed

/-- MeasurementSpot::validate (measurement_spot.cpp:8-41).  The C++ function
returns true or throws std::invalid_argument; the thrown message is modelled
as `Except.error`. -/
def MeasurementSpot.validate (s : MeasurementSpot) : Except String Bool :=
  if s.id ≤ 0 then Except.error "Spot ID must be positive"
  else if s.name.isEmpty then Except.error "Spot name cannot be empty"
  else if !nameMatchesPattern s.name then
    Except.error "Spot name contains invalid characters"
  else if s.x < 0 ∨ s.y < 0 then Except.error "Coordinates must be non-negative"
  else if s.min_temp ≥ s.max_temp then
    Except.error "Minimum temperature must be less than maximum temperature"
  else if s.min_temp < -100 ∨ s.max_temp > 500 then
    Except.error "Temperature range must be between -100C and 500C"
  else if s.noise_factor < 0 ∨ s.noise_factor > 1 then
    Except.error "Noise factor must be between 0.0 and 1.0"
  else Except.ok true

/-- The spot registry map `std::map<std::string, MeasurementSpot>`, modelled
as an association list with unique keys maintained by the operations. -/
abbrev SpotMap := List (String × MeasurementSpot)

/-- Lookup, modelling `spots_.find(key)` on the association list. -/
def mapFind : SpotMap → String → Option MeasurementSpot
  | [], _ => none
  | (k, v) :: rest, key => if k = key then some v else mapFind rest key

/-- Insert-or-assign, modelling `spots_[key] = value`. -/
def mapAssign : SpotMap → String → MeasurementSpot → SpotMap
  | [], key, v => [(key, v)]
  | (k, w) :: rest, key, v =>
    if k = key then (key, v) :: rest else (k, w) :: mapAssign rest key v

/-- Erase, modelling `spots_.erase(key)`: removes the entry with the given key. -/
def mapErase : SpotMap → String → SpotMap
  | [], _ => []
  | (k, w) :: rest, key => if k = key then rest else (k, w) :: mapErase rest key

/-- ThermalSpotManager::MAX_SPOTS (thermal_spot_manager.h:23). -/
def MAX_SPOTS : Nat := 5

/-- A temperature data source (TemperatureDataSource interface).  The random
draw inside an implementation is fixed in advance, making `getTemperature` a
function of the coordinates. -/
structure SourceModel where
  isReady : Bool
  getBaseTemperature : Int → Int → Rat
  getTemperature : Int → Int → Rat
  validateCoordinates : Int → Int → Bool

/-- CoordinateBasedTemperatureSource::validateCoordinates
(coordinate_based_source.cpp:31): 0 ≤ x < 320 and 0 ≤ y < 240. -/
def coordinateValidateCoordinates (x y : Int) : Bool :=
  decide (0 ≤ x ∧ x < 320 ∧ 0 ≤ y ∧ y < 240)

/-- CoordinateBasedTemperatureSource::getTemperature
(coordinate_based_source.cpp:12-21): base temperature plus the random
variation (here the explicit parameter `v`); 20 for invalid coordinates. -/
def coordinateGetTemperature (base : Int → Int → Rat) (v : Rat)
    (x y : Int) : Rat :=
  if coordinateValidateCoordinates x y then base x y + v else 20

/-- ThermalSpotManager::validateSpotId (thermal_spot_manager.cpp:170-172). -/
def validateSpotId (spotId : String) : Bool :=
  spotId == "1" || spotId == "2" || spotId == "3" || spotId == "4" || spotId == "5"

/-- ThermalSpotManager::spotExists (thermal_spot_manager.cpp:157-160):
present in the map and is_ready. -/
def spotExists (m : SpotMap) (spotId : String) : Bool :=
  match mapFind m spotId with
  | some s => s.is_ready
  | none => false

/-- ThermalSpotManager::getActiveSpotCount (thermal_spot_manager.cpp:162-164):
the total size of the map. -/
def getActiveSpotCount (m : SpotMap) : Nat := m.length

/-- ThermalSpotManager::isMaxSpotsReached (thermal_spot_manager.cpp:166-168). -/
def isMaxSpotsReached (m : SpotMap) : Bool :=
  decide (getActiveSpotCount m ≥ MAX_SPOTS)

/-- ThermalSpotManager::generateSpotName (thermal_spot_manager.cpp:251-253). -/
def generateSpotName (spotId : String) : String := "thermal_spot_" ++ spotId

/-- ThermalSpotManager::configureSpotWithTemperatureSource
(thermal_spot_manager.cpp:231-249). -/
def configureSpotWithTemperatureSource (src : SourceModel)
    (s : MeasurementSpot) (x y : Int) : MeasurementSpot :=
  if src.isReady then
    let base := src.getBaseTemperature x y
    { s with x := x, y := y, min_temp := base - mkRat 1 2,
             max_temp := base + mkRat 1 2, noise_factor := mkRat 1 10 }
  else
    { s with x := x, y := y, min_temp := 20, max_temp := 25,
             noise_factor := mkRat 1 10 }

/-- The spot built by ThermalSpotManager::createSpot before validation
(thermal_spot_manager.cpp:58-66): id from std::stoi, generated name, enabled
and ACTIVE, then configured from the temperature source. -/
def newSpotFor (src : SourceModel) (spotId : String) (x y : Int) : MeasurementSpot :=
  configureSpotWithTemperatureSource src
    { id := stoiDigits spotId, name := generateSpotName spotId,
      enabled := true, state := SpotState.ACTIVE } x y

/-- ThermalSpotManager::createSpot (thermal_spot_manager.cpp:33-87).
Returns the C++ boolean result together with the updated registry. -/
def createSpot (src : SourceModel) (m : SpotMap) (spotId : String)
    (x y : Int) : Bool × SpotMap :=
  if !validateSpotId spotId then (false, m)
  else if spotExists m spotId then (false, m)
  else if isMaxSpotsReached m then (false, m)
  else if !src.validateCoordinates x y then (false, m)
  else
    match (newSpotFor src spotId x y).validate with
    | Except.ok true => (true, mapAssign m spotId (newSpotFor src spotId x y))
    | _ => (false, m)

/-- ThermalSpotManager::moveSpot (thermal_spot_manager.cpp:89-111). -/
def moveSpot (src : SourceModel) (m : SpotMap) (spotId : String)
    (x y : Int) : Bool × SpotMap :=
  if !spotExists m spotId then (false, m)
  else if !src.validateCoordinates x y then (false, m)
  else
    match mapFind m spotId with
    | some s =>
      (true, mapAssign m spotId (configureSpotWithTemperatureSource src s x y))
    | none => (false, m)

/-- ThermalSpotManager::deleteSpot (thermal_spot_manager.cpp:113-128). -/
def deleteSpot (m : SpotMap) (spotId : String) : Bool × SpotMap :=
  if !spotExists m spotId then (false, m)
  else (true, mapErase m spotId)

/-- ThermalSpotManager::getSpotTemperature (thermal_spot_manager.cpp:142-155).
The C++ NaN result is modelled as `none`. -/
def getSpotTemperature (src : SourceModel) (m : SpotMap)
    (spotId : String) : Option Rat :=
  if !spotExists m spotId then none
  else
    match mapFind m spotId with
    | some s =>
      if !s.is_ready || !src.isReady then none
      else some (src.getTemperature s.x s.y)
    | none => none

/-- A create or delete operation on the registry, as issued through
ThermalSpotManager::createSpot / ThermalSpotManager::deleteSpot. -/
inductive RegistryOp where
  | create (spotId : String) (x : Int) (y : Int)
  | delete (spotId : String)

/-- Effect of one registry operation on the spot map. -/
def applyRegistryOp (src : SourceModel) (m : SpotMap) : RegistryOp → SpotMap
  | RegistryOp.create spotId x y => (createSpot src m spotId x y).2
  | RegistryOp.delete spotId => (deleteSpot m spotId).2

/-- Run a sequence of create/delete operations starting from the empty
registry. -/
def runRegistryOps (src : SourceModel) (ops : List RegistryOp) : SpotMap :=
  ops.foldl (applyRegistryOp src) []

theorem length_mapAssign_le (m : SpotMap) (k : String) (v : MeasurementSpot) :
    (mapAssign m k v).length ≤ m.length + 1 := by
  induction m with
  | nil => simp [mapAssign]
  | cons hd tl ih =>
    obtain ⟨k0, w⟩ := hd
    by_cases h : k0 = k
    · simp [mapAssign, h]
    · simp only [mapAssign, if_neg h, List.length_cons]
      omega

theorem length_mapErase_le (m : SpotMap) (k : String) :
    (mapErase m k).length ≤ m.length := by
  induction m with
  | nil => simp [mapErase]
  | cons hd tl ih =>
    obtain ⟨k0, w⟩ := hd
    by_cases h : k0 = k
    · simp [mapErase, h]
    · simp only [mapErase, if_neg h, List.length_cons]
      omega

theorem createSpot_of_full (src : SourceModel) (m : SpotMap) (spotId : String)
    (x y : Int) (h : getActiveSpotCount m ≥ MAX_SPOTS) :
    createSpot src m spotId x y = (false, m) := by
  have hmax : isMaxSpotsReached m = true := by
    unfold isMaxSpotsReached
    exact decide_eq_true h
  simp [createSpot, hmax]

theorem createSpot_snd_length_le (src : SourceModel) (m : SpotMap)
    (spotId : String) (x y : Int) (h : m.length ≤ MAX_SPOTS) :
    ((createSpot src m spotId x y).2).length ≤ MAX_SPOTS := by
  unfold createSpot
  split_ifs with h1 h2 h3 h4
  · exact h
  · exact h
  · exact h
  · exact h
  · have hlt : m.length < MAX_SPOTS := by
      by_contra hc
      apply h3
      unfold isMaxSpotsReached getActiveSpotCount
      exact decide_eq_true (Nat.le_of_not_lt hc)
    split
    · simpa using Nat.le_trans (length_mapAssign_le m spotId _) (by omega)
    · exact h

theorem applyRegistryOp_length_le (src : SourceModel) (m : SpotMap)
    (op : RegistryOp) (h : m.length ≤ MAX_SPOTS) :
    (applyRegistryOp src m op).length ≤ MAX_SPOTS := by
  cases op with
  | create spotId x y => exact createSpot_snd_length_le src m spotId x y h
  | delete spotId =>
    simp only [applyRegistryOp, deleteSpot]
    split_ifs with h1
    · simpa using h
    · simpa using Nat.le_trans (length_mapErase_le m spotId) h

theorem foldl_registryOps_length_le (src : SourceModel) (ops : List RegistryOp) :
    ∀ m : SpotMap, m.length ≤ MAX_SPOTS →
      (ops.foldl (applyRegistryOp src) m).length ≤ MAX_SPOTS := by
  induction ops with
  | nil => intro m hm; simpa using hm
  | cons op rest ih =>
    intro m hm
    exact ih _ (applyRegistryOp_length_le src m op hm)

/-- Claim C1: for every sequence of createSpot and deleteSpot operations
starting from an empty registry, the number of spots held by
ThermalSpotManager never exceeds 5, and createSpot returns false and leaves
the registry unchanged whenever it already holds 5 spots. -/
theorem c1_capacity_never_exceeded (src : SourceModel) (ops : List RegistryOp)
    (m : SpotMap) (spotId : String) (x y : Int)
    (hfull : getActiveSpotCount m = MAX_SPOTS) :
    getActiveSpotCount (runRegistryOps src ops) ≤ MAX_SPOTS ∧
    createSpot src m spotId x y = (false, m) := by
  constructor
  · exact foldl_registryOps_length_le src ops [] (by simp)
  · exact createSpot_of_full src m spotId x y (by omega)

/-- A concrete always-ready temperature source used to instantiate proved
theorems at specific inputs. -/
def demoSource : SourceModel where
  isReady := true
  getBaseTemperature := fun _ _ => 30
  getTemperature := fun _ _ => 30
  validateCoordinates := coordinateValidateCoordinates

/-- A concrete active spot used to instantiate proved theorems. -/
def demoSpot (n : Int) : MeasurementSpot :=
  { id := n, name := generateSpotName (toString n), x := 10, y := 10,
    min_temp := 20, max_temp := 25, noise_factor := mkRat 1 10,
    enabled := true, state := SpotState.ACTIVE }

/-- A concrete registry holding five spots. -/
def demoMap5 : SpotMap :=
  [("1", demoSpot 1), ("2", demoSpot 2), ("3", demoSpot 3),
   ("4", demoSpot 4), ("5", demoSpot 5)]

/-- Witness for C1: the capacity bound evaluated on a concrete operation
sequence and a concrete full registry. -/
theorem c1_capacity_never_exceeded_witness :
    getActiveSpotCount (runRegistryOps demoSource
      [RegistryOp.create "1" 10 10, RegistryOp.delete "1"]) ≤ MAX_SPOTS ∧
    createSpot demoSource demoMap5 "3" 10 10 = (false, demoMap5) :=
  c1_capacity_never_exceeded demoSource
    [RegistryOp.create "1" 10 10, RegistryOp.delete "1"]
    demoMap5 "3" 10 10 rfl

/-- Wrap of an unbounded integer into the 32-bit signed range, the
two's-complement behaviour of overflowing int arithmetic. -/
def wrap32 (n : Int) : Int := (n + 2 ^ 31) % 2 ^ 32 - 2 ^ 31

/-- MQTTClient::calculate_reconnect_delay (client.cpp:292-296): the delay
`initial_delay_ms_ * static_cast<int>(std::pow(2, attempts-1))` capped at
`max_delay_ms_`, computed in 32-bit int (client.h:175-176).  Both the
double-to-int cast of the power and the int-typed product are wrapped by
wrap32: the cast is exact below 2^31 (std::pow of 2 is exact in double),
and beyond the representable range the C++ arithmetic overflows (undefined
behaviour in the standard, two's-complement wrap in practice), which wrap32
models. -/
def calculate_reconnect_delay (initial_delay_ms max_delay_ms : Int)
    (reconnect_attempts : Int) : Int :=
  min (wrap32 (initial_delay_ms * wrap32 (2 ^ (reconnect_attempts - 1).toNat)))
      max_delay_ms

/-- Counterexample to C2 as frozen: at initial delay 1000 the 32-bit product
overflows at attempt 23, so the computed delay is negative there — it is not
min(initial · 2^(n−1), max) and the delay sequence decreases from attempt 22
to attempt 23. -/
theorem c2_reconnect_delay_overflow_counterexample :
    calculate_reconnect_delay 1000 30000 23
      ≠ min (1000 * 2 ^ ((23 : Int) - 1).toNat) 30000 ∧
    calculate_reconnect_delay 1000 30000 23
      < calculate_reconnect_delay 1000 30000 22 ∧
    calculate_reconnect_delay 1000 30000 23 < 0 := by
  refine ⟨by decide, by decide, by decide⟩

theorem wrap32_eq_self (k : Int) (h1 : -(2 ^ 31) ≤ k) (h2 : k < 2 ^ 31) :
    wrap32 k = k := by
  unfold wrap32
  have ha : (0 : Int) ≤ k + 2 ^ 31 := by linarith
  have hb : k + 2 ^ 31 < 2 ^ 32 := by norm_num; linarith
  rw [Int.emod_eq_of_lt ha hb]
  ring

/-- Claim C2 (amended): for attempt numbers n with 1 ≤ n ≤ 30 whose product
initial · 2^n stays below 2^31 (so the 32-bit computation does not
overflow), with initial ≥ 0 and max ≥ initial, the computed delay equals
min(initial · 2^(n−1), max), the delay is non-decreasing from attempt n to
n + 1, and it never exceeds max; outside this window the 32-bit product
overflows and the equality and monotonicity fail. -/
theorem c2_reconnect_delay_backoff (i mx n : Int) (h1 : 1 ≤ n) (hn : n ≤ 30)
    (hi : 0 ≤ i) (hm : i ≤ mx) (hno : i * 2 ^ n.toNat < 2 ^ 31) :
    calculate_reconnect_delay i mx n = min (i * 2 ^ (n - 1).toNat) mx ∧
    calculate_reconnect_delay i mx n ≤ calculate_reconnect_delay i mx (n + 1) ∧
    calculate_reconnect_delay i mx n ≤ mx := by
  have hpow1 : (n + 1 - 1).toNat = (n - 1).toNat + 1 := by omega
  have hpowmono : (2 : Int) ^ (n - 1).toNat ≤ 2 ^ n.toNat := by
    apply pow_le_pow_right (by norm_num)
    omega
  have hstep : i * 2 ^ (n - 1).toNat ≤ i * 2 ^ n.toNat :=
    mul_le_mul_of_nonneg_left hpowmono hi
  have hprodnn : (0 : Int) ≤ i * 2 ^ (n - 1).toNat := by positivity
  have hprodnn2 : (0 : Int) ≤ i * 2 ^ n.toNat := by positivity
  have hcast1 : wrap32 (2 ^ (n - 1).toNat) = 2 ^ (n - 1).toNat := by
    apply wrap32_eq_self
    · have : (0 : Int) ≤ 2 ^ (n - 1).toNat := by positivity
      linarith
    · apply pow_lt_pow_right (by norm_num)
      omega
  have hcast2 : wrap32 (2 ^ (n + 1 - 1).toNat) = 2 ^ (n + 1 - 1).toNat := by
    apply wrap32_eq_self
    · have : (0 : Int) ≤ 2 ^ (n + 1 - 1).toNat := by positivity
      linarith
    · apply pow_lt_pow_right (by norm_num)
      omega
  have hprod1 : wrap32 (i * 2 ^ (n - 1).toNat) = i * 2 ^ (n - 1).toNat := by
    apply wrap32_eq_self
    · linarith
    · calc i * 2 ^ (n - 1).toNat ≤ i * 2 ^ n.toNat := hstep
        _ < 2 ^ 31 := hno
  have hprod2 : wrap32 (i * 2 ^ (n + 1 - 1).toNat) = i * 2 ^ (n + 1 - 1).toNat := by
    apply wrap32_eq_self
    · have : (0 : Int) ≤ i * 2 ^ (n + 1 - 1).toNat := by positivity
      linarith
    · rw [hpow1]
      calc i * 2 ^ ((n - 1).toNat + 1) = i * 2 ^ n.toNat := by
            rw [show (n - 1).toNat + 1 = n.toNat from by omega]
        _ < 2 ^ 31 := hno
  unfold calculate_reconnect_delay
  rw [hcast1, hprod1, hcast2, hprod2]
  refine ⟨rfl, ?_, min_le_right _ _⟩
  rw [hpow1, pow_succ, ← mul_assoc]
  exact min_le_min (by linarith) le_rfl

/-- Witness for C2 at initial delay 1000, cap 30000, attempt 3 (inside the
no-overflow window). -/
theorem c2_reconnect_delay_backoff_witness :
    calculate_reconnect_delay 1000 30000 3 = min (1000 * 2 ^ ((3:Int) - 1).toNat) 30000 ∧
    calculate_reconnect_delay 1000 30000 3 ≤ calculate_reconnect_delay 1000 30000 4 ∧
    calculate_reconnect_delay 1000 30000 3 ≤ 30000 :=
  c2_reconnect_delay_backoff 1000 30000 3 (by norm_num) (by norm_num)
    (by norm_num) (by norm_num) (by decide)

theorem validate_ok_imp_true (s : MeasurementSpot) :
    ∀ b : Bool, s.validate = Except.ok b → b = true := by
  intro b hb
  unfold MeasurementSpot.validate at hb
  split_ifs at hb <;> simp_all

theorem validate_ok_or_error (s : MeasurementSpot) :
    s.validate = Except.ok true ∨ ∃ e : String, s.validate = Except.error e := by
  unfold MeasurementSpot.validate
  split_ifs <;> first | exact Or.inl rfl | exact Or.inr ⟨_, rfl⟩

theorem validate_ok_iff (s : MeasurementSpot) :
    s.validate = Except.ok true ↔
      (0 < s.id ∧ s.name ≠ "" ∧ nameMatchesPattern s.name = true ∧
       0 ≤ s.x ∧ 0 ≤ s.y ∧ s.min_temp < s.max_temp ∧
       -100 ≤ s.min_temp ∧ s.min_temp ≤ 500 ∧
       -100 ≤ s.max_temp ∧ s.max_temp ≤ 500 ∧
       0 ≤ s.noise_factor ∧ s.noise_factor ≤ 1) := by
  unfold MeasurementSpot.validate
  split_ifs with h1 h2 h3 h4 h5 h6 h7
  · refine iff_of_false (by simp) ?_
    rintro ⟨hid, -⟩
    omega
  · refine iff_of_false (by simp) ?_
    rintro ⟨-, -, hpat, -⟩
    simp [nameMatchesPattern, h2] at hpat
  · refine iff_of_false (by simp) ?_
    rintro ⟨-, -, hpat, -⟩
    simp [hpat] at h3
  · refine iff_of_false (by simp) ?_
    rintro ⟨-, -, -, hx, hy, -⟩
    omega
  · refine iff_of_false (by simp) ?_
    rintro ⟨-, -, -, -, -, hlt, -⟩
    linarith
  · refine iff_of_false (by simp) ?_
    rintro ⟨-, -, -, -, -, -, hmin1, -, -, hmax2, -⟩
    rcases h6 with h | h <;> linarith
  · refine iff_of_false (by simp) ?_
    rintro ⟨-, -, -, -, -, -, -, -, -, -, hn1, hn2⟩
    rcases h7 with h | h <;> linarith
  · push_neg at h4
    have hpat : nameMatchesPattern s.name = true := by
      simpa using h3
    have hne : s.name ≠ "" := by
      intro heq
      rw [heq] at hpat
      exact absurd hpat (by decide)
    have hlt : s.min_temp < s.max_temp := lt_of_not_ge h5
    have hmin : -100 ≤ s.min_temp := le_of_not_lt (fun hc => h6 (Or.inl hc))
    have hmax : s.max_temp ≤ 500 := le_of_not_lt (fun hc => h6 (Or.inr hc))
    have hnf1 : 0 ≤ s.noise_factor := le_of_not_lt (fun hc => h7 (Or.inl hc))
    have hnf2 : s.noise_factor ≤ 1 := le_of_not_lt (fun hc => h7 (Or.inr hc))
    exact iff_of_true rfl ⟨by omega, hne, hpat, h4.1, h4.2, hlt, hmin,
      by linarith, by linarith, hmax, hnf1, hnf2⟩
/-- Claim C10: MeasurementSpot::validate never returns false — it returns
true exactly when id is positive, the name is non-empty and matches the
allowed character set, coordinates are non-negative, min_temp < max_temp
with both inside [-100, 500], and noise_factor lies in [0, 1]; in every
other situation it throws std::invalid_argument naming the violated
constraint. -/
theorem c10_validate_total (s : MeasurementSpot) :
    (∀ b : Bool, s.validate = Except.ok b → b = true) ∧
    (s.validate = Except.ok true ↔
      (0 < s.id ∧ s.name ≠ "" ∧ nameMatchesPattern s.name = true ∧
       0 ≤ s.x ∧ 0 ≤ s.y ∧ s.min_temp < s.max_temp ∧
       -100 ≤ s.min_temp ∧ s.min_temp ≤ 500 ∧
       -100 ≤ s.max_temp ∧ s.max_temp ≤ 500 ∧
       0 ≤ s.noise_factor ∧ s.noise_factor ≤ 1)) ∧
    (s.validate = Except.ok true ∨ ∃ e : String, s.validate = Except.error e) :=
  ⟨validate_ok_imp_true s, validate_ok_iff s, validate_ok_or_error s⟩

/-- Witness for C10: validate accepts a concrete well-formed spot. -/
theorem c10_validate_total_witness :
    MeasurementSpot.validate (demoSpot 1) = Except.ok true :=
  (c10_validate_total (demoSpot 1)).2.1.mpr (by decide)

/-- Minimal model of an nlohmann::json value as used by the RPC layer and
the spot persistence file. -/
inductive Json where
  | jnull
  | jbool (b : Bool)
  | jint (n : Int)
  | jnum (q : Rat)
  | jstr (s : String)
  | jarr (elems : List Json)
  | jobj (fields : List (String × Json))

/-- Field lookup in a JSON object field list. -/
def lookupField : List (String × Json) → String → Option Json
  | [], _ => none
  | (k, v) :: rest, key => if k = key then some v else lookupField rest key

/-- Field access: some value when the object contains the key, else none
(also none on non-objects), modelling `contains` plus `operator[]`. -/
def Json.get : Json → String → Option Json
  | Json.jobj fields, key => lookupField fields key
  | _, _ => none

/-- String field access, modelling `contains(key) && json[key].is_string()`
plus the extracted value. -/
def Json.getStr (j : Json) (key : String) : Option String :=
  match j.get key with
  | some (Json.jstr s) => some s
  | _ => none

/-- Integer field access, modelling `contains(key)` plus
`is_number_integer()` plus the extracted value. -/
def Json.getInt (j : Json) (key : String) : Option Int :=
  match j.get key with
  | some (Json.jint n) => some n
  | _ => none

/-- RPC methods (rpc_types.h). -/
inductive RPCMethod where
  | CREATE_SPOT_MEASUREMENT
  | MOVE_SPOT_MEASUREMENT
  | DELETE_SPOT_MEASUREMENT
  | LIST_SPOT_MEASUREMENTS
  | GET_SPOT_TEMPERATURE
  | UNKNOWN
deriving DecidableEq

/-- RPC command statuses (rpc_types.h). -/
inductive RPCStatus where
  | PENDING
  | PROCESSING
  | COMPLETED
  | ERROR
  | TIMEOUT
deriving DecidableEq

/-- An RPC command (rpc_types.h); defaults mirror the C++ member
initializers, in particular the 5000 ms default timeout. -/
structure RPCCommand where
  requestId : String := ""
  method : RPCMethod := RPCMethod.UNKNOWN
  parameters : Json := Json.jobj []
  timeoutMs : Int := 5000
  status : RPCStatus := RPCStatus.PENDING

/-- RPCCommand::parseMethod (rpc_types.cpp:6-17). -/
def RPCCommand.parseMethod (method_str : String) : RPCMethod :=
  if method_str = "createSpotMeasurement" then RPCMethod.CREATE_SPOT_MEASUREMENT
  else if method_str = "moveSpotMeasurement" then RPCMethod.MOVE_SPOT_MEASUREMENT
  else if method_str = "deleteSpotMeasurement" then RPCMethod.DELETE_SPOT_MEASUREMENT
  else if method_str = "listSpotMeasurements" then RPCMethod.LIST_SPOT_MEASUREMENTS
  else if method_str = "getSpotTemperature" then RPCMethod.GET_SPOT_TEMPERATURE
  else RPCMethod.UNKNOWN

/-- RPCCommand::methodToString (rpc_types.cpp:19-35). -/
def RPCCommand.methodToString : RPCMethod → String
  | RPCMethod.CREATE_SPOT_MEASUREMENT => "createSpotMeasurement"
  | RPCMethod.MOVE_SPOT_MEASUREMENT => "moveSpotMeasurement"
  | RPCMethod.DELETE_SPOT_MEASUREMENT => "deleteSpotMeasurement"
  | RPCMethod.LIST_SPOT_MEASUREMENTS => "listSpotMeasurements"
  | RPCMethod.GET_SPOT_TEMPERATURE => "getSpotTemperature"
  | RPCMethod.UNKNOWN => "unknown"

/-- RPCParser::parseCommand (rpc_parser.cpp:7-50).  The payload is the
result of parseJsonSafely: `none` models malformed JSON. -/
def parseCommand (request_id : String) (payload : Option Json) : RPCCommand :=
  let command : RPCCommand := { requestId := request_id, status := RPCStatus.PENDING }
  match payload with
  | none => { command with status := RPCStatus.ERROR }
  | some json_data =>
    match json_data.getStr "method" with
    | none => { command with status := RPCStatus.ERROR }
    | some method_str =>
      let method := RPCCommand.parseMethod method_str
      if method = RPCMethod.UNKNOWN then
        { command with method := method, status := RPCStatus.ERROR }
      else
        let params := (json_data.get "params").getD (Json.jobj [])
        let command2 := { command with method := method, parameters := params }
        match json_data.getInt "timeout" with
        | some t => { command2 with timeoutMs := t }
        | none => command2

/-- RPCParser::validateTimeout (rpc_parser.cpp:140-142). -/
def validateTimeout (timeout_ms : Int) : Bool :=
  decide (1000 ≤ timeout_ms ∧ timeout_ms ≤ 30000)

/-- RPCParser::validateCoordinates (rpc_parser.cpp:136-138). -/
def rpcValidateCoordinates (x y : Int) : Bool :=
  decide (0 ≤ x ∧ x < 320 ∧ 0 ≤ y ∧ y < 240)

/-- RPCParser::parseCreateSpotParams (rpc_parser.cpp:88-111); returns the
error message, empty when valid. -/
def parseCreateSpotParams (params : Json) : String :=
  match params.getStr "spotId" with
  | none => "Missing or invalid spotId parameter"
  | some spotId =>
    if !validateSpotId spotId then "Invalid spotId: must be 1, 2, 3, 4, or 5"
    else
      match params.getInt "x" with
      | none => "Missing or invalid x coordinate parameter"
      | some x =>
        match params.getInt "y" with
        | none => "Missing or invalid y coordinate parameter"
        | some y =>
          if !rpcValidateCoordinates x y then
            "Invalid coordinates: x must be 0-319, y must be 0-239"
          else ""

/-- RPCParser::parseDeleteSpotParams (rpc_parser.cpp:119-130). -/
def parseDeleteSpotParams (params : Json) : String :=
  match params.getStr "spotId" with
  | none => "Missing or invalid spotId parameter"
  | some spotId =>
    if !validateSpotId spotId then "Invalid spotId: must be 1, 2, 3, 4, or 5"
    else ""

/-- RPCParser::validateCommand (rpc_parser.cpp:52-86).  Note: the C++ switch
has no case for GET_SPOT_TEMPERATURE, so that method falls into the default
branch. -/
def validateCommand (command : RPCCommand) : String :=
  if !validateTimeout command.timeoutMs then
    "Invalid timeout value: must be between 1000 and 30000 milliseconds"
  else
    match command.method with
    | RPCMethod.CREATE_SPOT_MEASUREMENT => parseCreateSpotParams command.parameters
    | RPCMethod.MOVE_SPOT_MEASUREMENT => parseCreateSpotParams command.parameters
    | RPCMethod.DELETE_SPOT_MEASUREMENT => parseDeleteSpotParams command.parameters
    | RPCMethod.LIST_SPOT_MEASUREMENTS => ""
    | RPCMethod.GET_SPOT_TEMPERATURE => "Unknown RPC method"
    | RPCMethod.UNKNOWN => "Unknown RPC method"

/-- ThermalRPCHandler::isSupported (thermal_rpc_handler.cpp:21-31). -/
def isSupported (method : String) : Bool :=
  method == "createSpotMeasurement" || method == "moveSpotMeasurement" ||
  method == "deleteSpotMeasurement" || method == "listSpotMeasurements" ||
  method == "getSpotTemperature"

/-- The dispatch decision of ThingsBoardDevice::handle_rpc_command
(paho_device.cpp:272-320): a parsed command reaches the thermal handler only
when validateCommand returns the empty string and the handler supports the
method name. -/
def dispatchesToThermalHandler (command : RPCCommand) : Bool :=
  (validateCommand command == "") &&
  isSupported (RPCCommand.methodToString command.method)

/-- Counterexample to C3 as frozen: the payload with fields
[timeout = 7000] has a present integer timeout field, yet parseCommand
returns early with status ERROR (missing method) and keeps the 5000 ms
default instead of overriding it with 7000. -/
theorem c3_timeout_not_overridden_counterexample :
    (Json.jobj [("timeout", Json.jint 7000)]).getInt "timeout" = some 7000 ∧
    (parseCommand "42" (some (Json.jobj [("timeout", Json.jint 7000)]))).status
      = RPCStatus.ERROR ∧
    (parseCommand "42" (some (Json.jobj [("timeout", Json.jint 7000)]))).timeoutMs
      = 5000 :=
  ⟨rfl, rfl, rfl⟩

/-- Claim C3 (amended): parseCommand yields a command with status ERROR for
malformed JSON, for a missing or non-string method field, and for an
unrecognized method name, and such a command is never dispatched to the
thermal handler; for a payload that parses successfully (a string method
naming a recognized method), a present integer timeout field overrides the
5000 ms default. -/
theorem c3_parse_errors_never_dispatched (rid : String) (payload : Option Json)
    (j : Json) (s : String) (t : Int)
    (herr : payload = none ∨
      (∃ jd, payload = some jd ∧ jd.getStr "method" = none) ∨
      (∃ jd ms, payload = some jd ∧ jd.getStr "method" = some ms ∧
        RPCCommand.parseMethod ms = RPCMethod.UNKNOWN))
    (hm : j.getStr "method" = some s)
    (hk : RPCCommand.parseMethod s ≠ RPCMethod.UNKNOWN)
    (ht : j.getInt "timeout" = some t) :
    ((parseCommand rid payload).status = RPCStatus.ERROR ∧
     dispatchesToThermalHandler (parseCommand rid payload) = false) ∧
    (parseCommand rid (some j)).timeoutMs = t := by
  constructor
  · have hcmd : parseCommand rid payload =
        { requestId := rid, status := RPCStatus.ERROR } := by
      rcases herr with h | ⟨jd, hpd, hms⟩ | ⟨jd, ms, hpd, hms, hu⟩
      · rw [h]; rfl
      · rw [hpd]; simp [parseCommand, hms]
      · rw [hpd]; simp [parseCommand, hms, hu]
    rw [hcmd]
    exact ⟨rfl, rfl⟩
  · simp [parseCommand, hm, hk, ht]

/-- Witness for C3 at concrete inputs: a malformed payload is rejected and
never dispatched; a well-formed listSpotMeasurements payload with
timeout 8000 has its timeout overridden. -/
theorem c3_parse_errors_never_dispatched_witness :
    ((parseCommand "7" none).status = RPCStatus.ERROR ∧
     dispatchesToThermalHandler (parseCommand "7" none) = false) ∧
    (parseCommand "7" (some (Json.jobj
      [("method", Json.jstr "listSpotMeasurements"),
       ("timeout", Json.jint 8000)]))).timeoutMs = 8000 :=
  c3_parse_errors_never_dispatched "7" none
    (Json.jobj [("method", Json.jstr "listSpotMeasurements"),
                ("timeout", Json.jint 8000)])
    "listSpotMeasurements" 8000 (Or.inl rfl) rfl (by decide) rfl

/-- MQTT connection states (mqtt/client.h:16-22). -/
inductive ConnectionState where
  | DISCONNECTED
  | CONNECTING
  | CONNECTED
  | RECONNECTING
  | FAILED
deriving DecidableEq

/-- MQTTClient::is_connected (client.cpp:192-195): the client object exists,
the transport reports connected, and the tracked state is CONNECTED. -/
def mqtt_is_connected (clientInit transportConnected : Bool)
    (st : ConnectionState) : Bool :=
  clientInit && transportConnected && (st == ConnectionState.CONNECTED)

/-- MQTTClient::disconnect (client.cpp:133-157).  `clientInit` models a
non-null client_, `transportConnected` the transport-level connection flag,
and `ackWithinTimeout` whether the broker acknowledgment arrived before
`wait_for(timeout_ms)` expired.  Returns the boolean result and the
connection state afterwards. -/
def mqtt_disconnect (clientInit transportConnected : Bool)
    (st : ConnectionState) (ackWithinTimeout : Bool) : Bool × ConnectionState :=
  if !clientInit || !(mqtt_is_connected clientInit transportConnected st) then
    (true, st)
  else if ackWithinTimeout then (true, ConnectionState.DISCONNECTED)
  else (false, st)

/-- Counterexample to C4 as frozen: from the CONNECTED state, when the
broker acknowledgment does not arrive within the timeout, disconnect
returns false and the connection state remains CONNECTED, not
DISCONNECTED. -/
theorem c4_disconnect_timeout_counterexample :
    mqtt_disconnect true true ConnectionState.CONNECTED false
      = (false, ConnectionState.CONNECTED) ∧
    (mqtt_disconnect true true ConnectionState.CONNECTED false).2
      ≠ ConnectionState.DISCONNECTED := by
  exact ⟨rfl, by decide⟩

/-- Claim C4 (amended): disconnect waits at most the given timeout for the
broker acknowledgment (modelled by the ackWithinTimeout event); when the
client is not connected it returns true leaving the state unchanged, when
the acknowledgment arrives in time it returns true and sets the state to
DISCONNECTED, and when the wait times out it returns false and leaves the
state unchanged. -/
theorem c4_disconnect_outcomes (clientInit transportConnected : Bool)
    (st : ConnectionState) (ack : Bool) :
    mqtt_disconnect clientInit transportConnected st ack =
      (if mqtt_is_connected clientInit transportConnected st = false then
        (true, st)
       else if ack = true then (true, ConnectionState.DISCONNECTED)
       else (false, st)) := by
  cases clientInit <;> cases transportConnected <;> cases st <;> cases ack <;> rfl

theorem mapFind_mapAssign_self (m : SpotMap) (k : String) (v : MeasurementSpot) :
    mapFind (mapAssign m k v) k = some v := by
  induction m with
  | nil => simp [mapAssign, mapFind]
  | cons hd tl ih =>
    obtain ⟨k0, w⟩ := hd
    by_cases h : k0 = k
    · simp [mapAssign, h, mapFind]
    · simp [mapAssign, h, mapFind, ih]

theorem createSpot_success (src : SourceModel) (m : SpotMap) (spotId : String)
    (x y : Int) (h : (createSpot src m spotId x y).1 = true) :
    src.validateCoordinates x y = true ∧
    (newSpotFor src spotId x y).validate = Except.ok true ∧
    createSpot src m spotId x y = (true, mapAssign m spotId (newSpotFor src spotId x y)) := by
  unfold createSpot at h ⊢
  split_ifs at h ⊢ with h1 h2 h3 h4
  cases hv : (newSpotFor src spotId x y).validate with
  | error e =>
    rw [hv] at h
    simp at h
  | ok b =>
    cases b with
    | false =>
      rw [hv] at h
      simp at h
    | true =>
      exact ⟨by simpa using h4, rfl, rfl⟩

/-- The manager wired to a CoordinateBasedTemperatureSource whose random
draw for the reading is the fixed value v. -/
def coordSource (base : Int → Int → Rat) (v : Rat) : SourceModel where
  isReady := true
  getBaseTemperature := base
  getTemperature := coordinateGetTemperature base v
  validateCoordinates := coordinateValidateCoordinates

/-- Claim C6: after a successful createSpot with a ready coordinate-based
temperature source, getSpotTemperature on the same id returns the base
temperature at (x, y) plus the bounded random variation, which lies inside
the spot's [min_temp, max_temp] band of base ± 0.5 °C. -/
theorem c6_temperature_within_band (base : Int → Int → Rat) (v : Rat)
    (m : SpotMap) (spotId : String) (x y : Int)
    (hv1 : -(mkRat 1 2) ≤ v) (hv2 : v ≤ mkRat 1 2)
    (hok : (createSpot (coordSource base v) m spotId x y).1 = true) :
    getSpotTemperature (coordSource base v)
        (createSpot (coordSource base v) m spotId x y).2 spotId
      = some (base x y + v) ∧
    mapFind (createSpot (coordSource base v) m spotId x y).2 spotId
      = some (newSpotFor (coordSource base v) spotId x y) ∧
    (newSpotFor (coordSource base v) spotId x y).min_temp = base x y - mkRat 1 2 ∧
    (newSpotFor (coordSource base v) spotId x y).max_temp = base x y + mkRat 1 2 ∧
    (newSpotFor (coordSource base v) spotId x y).min_temp ≤ base x y + v ∧
    base x y + v ≤ (newSpotFor (coordSource base v) spotId x y).max_temp := by
  obtain ⟨hcoords, hval, heq⟩ := createSpot_success _ _ _ _ _ hok
  have hspot : newSpotFor (coordSource base v) spotId x y =
      { id := stoiDigits spotId, name := generateSpotName spotId,
        x := x, y := y, min_temp := base x y - mkRat 1 2,
        max_temp := base x y + mkRat 1 2, noise_factor := mkRat 1 10,
        enabled := true, state := SpotState.ACTIVE } := by
    simp [newSpotFor, configureSpotWithTemperatureSource, coordSource]
  have hfind : mapFind (createSpot (coordSource base v) m spotId x y).2 spotId
      = some (newSpotFor (coordSource base v) spotId x y) := by
    rw [heq]
    exact mapFind_mapAssign_self m spotId _
  have hready : (newSpotFor (coordSource base v) spotId x y).is_ready = true := by
    rw [hspot]
    rfl
  refine ⟨?_, hfind, by rw [hspot], by rw [hspot], ?_, ?_⟩
  · unfold getSpotTemperature spotExists
    rw [hfind, hspot]
    have hvc : coordinateValidateCoordinates x y = true := hcoords
    simp [MeasurementSpot.is_ready, coordSource, coordinateGetTemperature, hvc]
  · rw [hspot]
    show base x y - mkRat 1 2 ≤ base x y + v
    linarith
  · rw [hspot]
    show base x y + v ≤ base x y + mkRat 1 2
    linarith

/-- Witness for C6: base temperature 30 everywhere, variation 1/4, creating
spot "1" at (10, 10) on the empty registry. -/
theorem c6_temperature_within_band_witness :
    getSpotTemperature (coordSource (fun _ _ => 30) (mkRat 1 4))
        (createSpot (coordSource (fun _ _ => 30) (mkRat 1 4)) [] "1" 10 10).2 "1"
      = some (30 + mkRat 1 4) ∧
    mapFind (createSpot (coordSource (fun _ _ => 30) (mkRat 1 4)) [] "1" 10 10).2 "1"
      = some (newSpotFor (coordSource (fun _ _ => 30) (mkRat 1 4)) "1" 10 10) ∧
    (newSpotFor (coordSource (fun _ _ => 30) (mkRat 1 4)) "1" 10 10).min_temp
      = 30 - mkRat 1 2 ∧
    (newSpotFor (coordSource (fun _ _ => 30) (mkRat 1 4)) "1" 10 10).max_temp
      = 30 + mkRat 1 2 ∧
    (newSpotFor (coordSource (fun _ _ => 30) (mkRat 1 4)) "1" 10 10).min_temp
      ≤ 30 + mkRat 1 4 ∧
    30 + mkRat 1 4
      ≤ (newSpotFor (coordSource (fun _ _ => 30) (mkRat 1 4)) "1" 10 10).max_temp :=
  c6_temperature_within_band (fun _ _ => 30) (mkRat 1 4) [] "1" 10 10
    (by decide) (by decide) (by decide)

/-- An RPC response as built by ThermalRPCHandler::sendSuccessResponse /
sendErrorResponse (thermal_rpc_handler.cpp:285-302). -/
inductive RPCResponse where
  | success (data : Json)
  | error (code : String) (message : String)

/-- Whether a response is a success response. -/
def RPCResponse.isSuccess : RPCResponse → Bool
  | RPCResponse.success _ => true
  | _ => false

/-- The error code of an error response. -/
def RPCResponse.errorCode : RPCResponse → Option String
  | RPCResponse.error code _ => some code
  | _ => none

/-- ThermalRPCHandler::validateCreateSpotParams
(thermal_rpc_handler.cpp:304-308): spotId string plus integer x, y. -/
def validateCreateSpotParams (command : RPCCommand) : Bool :=
  (command.parameters.getStr "spotId").isSome &&
  (command.parameters.getInt "x").isSome &&
  (command.parameters.getInt "y").isSome

/-- ThermalRPCHandler::handleCreateSpotMeasurement
(thermal_rpc_handler.cpp:59-121): validates parameters, calls
ThermalSpotManager::createSpot, and on failure reconstructs the most likely
error code from the registry state.  Returns the response together with the
registry afterwards. -/
def handleCreateSpotMeasurement (src : SourceModel) (m : SpotMap)
    (command : RPCCommand) : RPCResponse × SpotMap :=
  if !validateCreateSpotParams command then
    (RPCResponse.error "MISSING_PARAMETERS"
      "Missing required parameters: spotId, x, y", m)
  else
    let spot_id := (command.parameters.getStr "spotId").getD ""
    let x := (command.parameters.getInt "x").getD 0
    let y := (command.parameters.getInt "y").getD 0
    match createSpot src m spot_id x y with
    | (true, m2) =>
      let data :=
        match getSpotTemperature src m2 spot_id with
        | some t => Json.jobj
            [("spotId", Json.jstr spot_id), ("x", Json.jint x),
             ("y", Json.jint y), ("status", Json.jstr "created"),
             ("temperature", Json.jnum t)]
        | none => Json.jobj
            [("spotId", Json.jstr spot_id), ("x", Json.jint x),
             ("y", Json.jint y), ("status", Json.jstr "created")]
      (RPCResponse.success data, m2)
    | (false, _) =>
      if spotExists m spot_id then
        (RPCResponse.error "SPOT_ALREADY_EXISTS"
          ("Spot with ID " ++ spot_id ++ " already exists"), m)
      else if x < 0 ∨ x > 319 ∨ y < 0 ∨ y > 239 then
        (RPCResponse.error "INVALID_COORDINATES"
          "Invalid coordinates: x must be 0-319, y must be 0-239", m)
      else if getActiveSpotCount m ≥ 5 then
        (RPCResponse.error "MAX_SPOTS_REACHED"
          "Maximum number of spots (5) already created", m)
      else
        (RPCResponse.error "INTERNAL_ERROR" "Failed to create spot", m)

/-- A createSpotMeasurement RPC command with the given parameters. -/
def createCmd (spotId : String) (x y : Int) : RPCCommand :=
  { requestId := "1", method := RPCMethod.CREATE_SPOT_MEASUREMENT,
    parameters := Json.jobj
      [("spotId", Json.jstr spotId), ("x", Json.jint x), ("y", Json.jint y)],
    timeoutMs := 5000, status := RPCStatus.PENDING }

/-- The registry after handling createSpotMeasurement commands for the given
ids at (10, 10), starting from the empty registry. -/
def runCreates (ids : List String) : SpotMap :=
  ids.foldl
    (fun m i => (handleCreateSpotMeasurement demoSource m (createCmd i 10 10)).2)
    []

/-- Claim C5: starting from an empty registry, createSpotMeasurement for
spot ids "1" through "5" succeeds each time; a sixth createSpotMeasurement
is answered with error code MAX_SPOTS_REACHED and the registry still holds
exactly 5 spots. -/
theorem c5_sixth_create_rejected :
    (handleCreateSpotMeasurement demoSource (runCreates [])
      (createCmd "1" 10 10)).1.isSuccess = true ∧
    (handleCreateSpotMeasurement demoSource (runCreates ["1"])
      (createCmd "2" 10 10)).1.isSuccess = true ∧
    (handleCreateSpotMeasurement demoSource (runCreates ["1", "2"])
      (createCmd "3" 10 10)).1.isSuccess = true ∧
    (handleCreateSpotMeasurement demoSource (runCreates ["1", "2", "3"])
      (createCmd "4" 10 10)).1.isSuccess = true ∧
    (handleCreateSpotMeasurement demoSource (runCreates ["1", "2", "3", "4"])
      (createCmd "5" 10 10)).1.isSuccess = true ∧
    (handleCreateSpotMeasurement demoSource (runCreates ["1", "2", "3", "4", "5"])
      (createCmd "6" 10 10)).1.errorCode = some "MAX_SPOTS_REACHED" ∧
    getActiveSpotCount
      (handleCreateSpotMeasurement demoSource (runCreates ["1", "2", "3", "4", "5"])
        (createCmd "6" 10 10)).2 = 5 := by
  decide

/-- The observable state of the persistence file when
SpotPersistence::loadSpots runs: absent, present but unopenable, present but
throwing during read/parse, or parsed JSON content. -/
inductive FileState where
  | missing
  | openFailure
  | parseFailure
  | content (j : Json)

/-- SpotPersistence::SCHEMA_VERSION. -/
def SCHEMA_VERSION : String := "1.0"

/-- SpotPersistence::validateSchema (spot_persistence.cpp:122-140): an
object with a string version field equal to "1.0". -/
def validateSchema (j : Json) : Bool :=
  match j with
  | Json.jobj _ =>
    match j.getStr "version" with
    | some version => version == SCHEMA_VERSION
    | none => false
  | _ => false

/-- Truncation of a rational toward zero, modelling the static_cast of a
double to int that nlohmann get of int applies to a number_float value. -/
def ratTrunc (q : Rat) : Int := q.num.tdiv (q.den : Int)

/-- One optional integer field of MeasurementSpot::from_json; absent keeps
the old value.  nlohmann get of int accepts the number types: an integer is
taken as is, a float-typed number is truncated toward zero; any other type
(boolean, string, array, object, null) throws json type_error. -/
def getFieldInt (j : Json) (key : String) (old : Int) : Except String Int :=
  match j.get key with
  | none => Except.ok old
  | some (Json.jint n) => Except.ok n
  | some (Json.jnum q) => Except.ok (ratTrunc q)
  | some _ => Except.error "type error"

/-- One optional string field of MeasurementSpot::from_json. -/
def getFieldStr (j : Json) (key : String) (old : String) : Except String String :=
  match j.get key with
  | none => Except.ok old
  | some (Json.jstr s) => Except.ok s
  | some _ => Except.error "type error"

/-- One optional number field of MeasurementSpot::from_json; nlohmann
get of double accepts integers and floats. -/
def getFieldRat (j : Json) (key : String) (old : Rat) : Except String Rat :=
  match j.get key with
  | none => Except.ok old
  | some (Json.jint n) => Except.ok (n : Rat)
  | some (Json.jnum q) => Except.ok q
  | some _ => Except.error "type error"

/-- One optional boolean field of MeasurementSpot::from_json. -/
def getFieldBool (j : Json) (key : String) (old : Bool) : Except String Bool :=
  match j.get key with
  | none => Except.ok old
  | some (Json.jbool b) => Except.ok b
  | some _ => Except.error "type error"

/-- MeasurementSpot::from_json (measurement_spot.cpp:43-71): reads each
present field over the defaults and derives the state from the enabled
flag; a wrongly-typed field throws (modelled as Except.error). -/
def MeasurementSpot.from_json (j : Json) : Except String MeasurementSpot := do
  let s : MeasurementSpot := {}
  let id ← getFieldInt j "id" s.id
  let name ← getFieldStr j "name" s.name
  let x ← getFieldInt j "x" s.x
  let y ← getFieldInt j "y" s.y
  let min_temp ← getFieldRat j "min_temp" s.min_temp
  let max_temp ← getFieldRat j "max_temp" s.max_temp
  let noise_factor ← getFieldRat j "noise_factor" s.noise_factor
  let enabled ← getFieldBool j "enabled" s.enabled
  Except.ok
    { id := id, name := name, x := x, y := y, min_temp := min_temp,
      max_temp := max_temp, noise_factor := noise_factor, enabled := enabled,
      state := if enabled then SpotState.ACTIVE else SpotState.INACTIVE }

/-- SpotPersistence::loadSpotFromJson (spot_persistence.cpp:142-159): a
record whose from_json or validate fails is skipped (none). -/
def loadSpotFromJson (spot_json : Json) : Option MeasurementSpot :=
  match MeasurementSpot.from_json spot_json with
  | Except.error _ => none
  | Except.ok spot =>
    match spot.validate with
    | Except.ok true => some spot
    | _ => none

/-- SpotPersistence::loadSpots (spot_persistence.cpp:15-62): the boolean
result and the loaded spots.  A missing file, a schema mismatch, a missing
spots array and a read/parse exception all yield (true, []); only an
unopenable existing file yields false. -/
def persistenceLoadSpots (fs : FileState) : Bool × List MeasurementSpot :=
  match fs with
  | FileState.missing => (true, [])
  | FileState.openFailure => (false, [])
  | FileState.parseFailure => (true, [])
  | FileState.content j =>
    if !validateSchema j then (true, [])
    else
      match j.get "thermal_spots" with
      | some (Json.jarr spots_array) =>
        (true, spots_array.filterMap loadSpotFromJson)
      | _ => (true, [])

/-- Claim C7: loadSpots returns the empty spot set without reporting an
error when the file is missing, when reading or parsing throws, and when
the schema version differs from "1.0"; for a stored file, exactly the
records accepted by loadSpotFromJson are loaded, so an invalid record is
skipped while every valid record is still loaded. -/
theorem c7_load_graceful_degradation (ver : String)
    (fields : List (String × Json)) (xs : List Json) (r : Json)
    (s : MeasurementSpot) (hver : ver ≠ "1.0") (hmem : r ∈ xs)
    (hsome : loadSpotFromJson r = some s) :
    persistenceLoadSpots FileState.missing = (true, []) ∧
    persistenceLoadSpots FileState.parseFailure = (true, []) ∧
    persistenceLoadSpots (FileState.content
      (Json.jobj (("version", Json.jstr ver) :: fields))) = (true, []) ∧
    (persistenceLoadSpots (FileState.content (Json.jobj
      [("version", Json.jstr "1.0"), ("thermal_spots", Json.jarr xs)]))).1
      = true ∧
    (persistenceLoadSpots (FileState.content (Json.jobj
      [("version", Json.jstr "1.0"), ("thermal_spots", Json.jarr xs)]))).2
      = xs.filterMap loadSpotFromJson ∧
    s ∈ (persistenceLoadSpots (FileState.content (Json.jobj
      [("version", Json.jstr "1.0"), ("thermal_spots", Json.jarr xs)]))).2 := by
  refine ⟨rfl, rfl, ?_, rfl, rfl, ?_⟩
  · simp [persistenceLoadSpots, validateSchema, Json.getStr, Json.get,
      lookupField, SCHEMA_VERSION, hver]
  · show s ∈ xs.filterMap loadSpotFromJson
    exact List.mem_filterMap.mpr ⟨r, hmem, hsome⟩

/-- A persisted spot record that from_json and validate both accept. -/
def demoGoodRecord : Json :=
  Json.jobj [("id", Json.jint 1), ("name", Json.jstr "spot_1"),
    ("x", Json.jint 5), ("y", Json.jint 5), ("min_temp", Json.jint 20),
    ("max_temp", Json.jint 25), ("noise_factor", Json.jnum (mkRat 1 10)),
    ("enabled", Json.jbool true)]

/-- A persisted spot record rejected by validate (non-positive id). -/
def demoBadRecord : Json :=
  Json.jobj [("id", Json.jint (-3)), ("name", Json.jstr "spot_bad")]

/-- A persisted spot record with a float-typed x coordinate, which nlohmann
get of int truncates toward zero (x = 5/2 loads as x = 2), so the record is
loaded, not skipped. -/
def demoFloatRecord : Json :=
  Json.jobj [("id", Json.jint 2), ("name", Json.jstr "spot_2"),
    ("x", Json.jnum (mkRat 5 2)), ("y", Json.jint 5),
    ("min_temp", Json.jint 20), ("max_temp", Json.jint 25),
    ("noise_factor", Json.jnum (mkRat 1 10)), ("enabled", Json.jbool true)]

/-- Witness for C7: version "2.0" is rejected; in a version "1.0" file the
invalid record is skipped while the valid records — including one with a
float-typed coordinate, loaded with the value truncated — are loaded. -/
theorem c7_load_graceful_degradation_witness :
    persistenceLoadSpots FileState.missing = (true, []) ∧
    persistenceLoadSpots FileState.parseFailure = (true, []) ∧
    persistenceLoadSpots (FileState.content
      (Json.jobj (("version", Json.jstr "2.0") :: []))) = (true, []) ∧
    (persistenceLoadSpots (FileState.content (Json.jobj
      [("version", Json.jstr "1.0"),
       ("thermal_spots",
        Json.jarr [demoBadRecord, demoGoodRecord, demoFloatRecord])]))).1
      = true ∧
    (persistenceLoadSpots (FileState.content (Json.jobj
      [("version", Json.jstr "1.0"),
       ("thermal_spots",
        Json.jarr [demoBadRecord, demoGoodRecord, demoFloatRecord])]))).2
      = [demoBadRecord, demoGoodRecord, demoFloatRecord].filterMap
          loadSpotFromJson ∧
    (loadSpotFromJson demoFloatRecord).getD {} ∈
      (persistenceLoadSpots (FileState.content (Json.jobj
        [("version", Json.jstr "1.0"),
         ("thermal_spots",
          Json.jarr [demoBadRecord, demoGoodRecord, demoFloatRecord])]))).2 :=
  c7_load_graceful_degradation "2.0" []
    [demoBadRecord, demoGoodRecord, demoFloatRecord]
    demoFloatRecord ((loadSpotFromJson demoFloatRecord).getD {})
    (by decide)
    (List.mem_cons_of_mem _
      (List.mem_cons_of_mem _ (List.mem_singleton_self _)))
    (by decide)

/-- One step of ThermalSpotManager::loadSpots (thermal_spot_manager.cpp:
188-195): keep a loaded record only when its id lies in 1..5, keyed by
std::to_string(id). -/
def loadSpotsStep (m : SpotMap) (spot : MeasurementSpot) : SpotMap :=
  if 1 ≤ spot.id ∧ spot.id ≤ 5 then mapAssign m (toString spot.id) spot else m

/-- ThermalSpotManager::loadSpots (thermal_spot_manager.cpp:178-204): the
registry built from the persisted spot list, starting from the cleared
map. -/
def managerLoadSpots (loaded : List MeasurementSpot) : SpotMap :=
  loaded.foldl loadSpotsStep []

/-- Every key of the registry map is one of the strings "1".."5". -/
def allKeysRestricted (m : SpotMap) : Bool :=
  m.all (fun p => validateSpotId p.1)

theorem mem_mapAssign (m : SpotMap) (k : String) (v : MeasurementSpot)
    (p : String × MeasurementSpot) (hp : p ∈ mapAssign m k v) :
    p = (k, v) ∨ p ∈ m := by
  induction m with
  | nil => simpa [mapAssign] using hp
  | cons hd tl ih =>
    obtain ⟨k0, w⟩ := hd
    by_cases h : k0 = k
    · simp only [mapAssign, if_pos h] at hp
      rcases List.mem_cons.mp hp with h1 | h1
      · exact Or.inl h1
      · exact Or.inr (List.mem_cons_of_mem _ h1)
    · simp only [mapAssign, if_neg h] at hp
      rcases List.mem_cons.mp hp with h1 | h1
      · exact Or.inr (h1 ▸ List.mem_cons_self _ _)
      · rcases ih h1 with h2 | h2
        · exact Or.inl h2
        · exact Or.inr (List.mem_cons_of_mem _ h2)

theorem mem_mapErase (m : SpotMap) (k : String)
    (p : String × MeasurementSpot) (hp : p ∈ mapErase m k) : p ∈ m := by
  induction m with
  | nil => simpa [mapErase] using hp
  | cons hd tl ih =>
    obtain ⟨k0, w⟩ := hd
    by_cases h : k0 = k
    · simp only [mapErase, if_pos h] at hp
      exact List.mem_cons_of_mem _ hp
    · simp only [mapErase, if_neg h] at hp
      rcases List.mem_cons.mp hp with h1 | h1
      · exact h1 ▸ List.mem_cons_self _ _
      · exact List.mem_cons_of_mem _ (ih h1)

theorem mapFind_mem (m : SpotMap) (k : String) (v : MeasurementSpot)
    (h : mapFind m k = some v) : (k, v) ∈ m := by
  induction m with
  | nil => simp [mapFind] at h
  | cons hd tl ih =>
    obtain ⟨k0, w⟩ := hd
    by_cases hk : k0 = k
    · simp only [mapFind, if_pos hk, Option.some.injEq] at h
      subst hk
      subst h
      exact List.mem_cons_self _ _
    · simp only [mapFind, if_neg hk] at h
      exact List.mem_cons_of_mem _ (ih h)

theorem allKeysRestricted_mapAssign (m : SpotMap) (k : String)
    (v : MeasurementSpot) (hm : allKeysRestricted m = true)
    (hk : validateSpotId k = true) :
    allKeysRestricted (mapAssign m k v) = true := by
  unfold allKeysRestricted at hm ⊢
  rw [List.all_eq_true] at hm ⊢
  intro p hp
  rcases mem_mapAssign m k v p hp with h | h
  · rw [h]
    simpa using hk
  · exact hm p h

theorem validateSpotId_toString (i : Int) (h1 : 1 ≤ i) (h2 : i ≤ 5) :
    validateSpotId (toString i) = true := by
  interval_cases i <;> decide

theorem managerLoadSpots_keys (loaded : List MeasurementSpot) :
    ∀ m0 : SpotMap, allKeysRestricted m0 = true →
      allKeysRestricted (loaded.foldl loadSpotsStep m0) = true := by
  induction loaded with
  | nil => intro m0 hm0; simpa using hm0
  | cons spot rest ih =>
    intro m0 hm0
    simp only [List.foldl_cons]
    apply ih
    unfold loadSpotsStep
    split_ifs with hid
    · exact allKeysRestricted_mapAssign m0 _ spot hm0
        (validateSpotId_toString spot.id hid.1 hid.2)
    · exact hm0

theorem createSpot_keys (src : SourceModel) (m : SpotMap) (spotId : String)
    (x y : Int) (h : allKeysRestricted m = true) :
    allKeysRestricted (createSpot src m spotId x y).2 = true := by
  unfold createSpot
  split_ifs with h1 h2 h3 h4
  · exact h
  · exact h
  · exact h
  · exact h
  · split
    · have hk : validateSpotId spotId = true := by simpa using h1
      simpa using allKeysRestricted_mapAssign m spotId _ h hk
    · exact h

theorem moveSpot_keys (src : SourceModel) (m : SpotMap) (spotId : String)
    (x y : Int) (h : allKeysRestricted m = true) :
    allKeysRestricted (moveSpot src m spotId x y).2 = true := by
  unfold moveSpot
  split_ifs with h1 h2
  · exact h
  · exact h
  · cases hf : mapFind m spotId with
    | none => exact h
    | some s =>
      have hmem := mapFind_mem m spotId s hf
      have hk : validateSpotId spotId = true := by
        unfold allKeysRestricted at h
        rw [List.all_eq_true] at h
        simpa using h (spotId, s) hmem
      simpa using allKeysRestricted_mapAssign m spotId _ h hk

theorem deleteSpot_keys (m : SpotMap) (spotId : String)
    (h : allKeysRestricted m = true) :
    allKeysRestricted (deleteSpot m spotId).2 = true := by
  unfold deleteSpot
  split_ifs with h1
  · exact h
  · unfold allKeysRestricted at h ⊢
    rw [List.all_eq_true] at h ⊢
    intro p hp
    exact h p (mem_mapErase m spotId p hp)

/-- Claim C8: every key of the spot map is one of "1".."5" — established by
loadSpots (which drops records whose id lies outside 1..5) and preserved by
createSpot, moveSpot and deleteSpot. -/
theorem c8_keys_always_restricted (src : SourceModel)
    (loaded : List MeasurementSpot) (m : SpotMap) (spotId : String)
    (x y : Int) (h : allKeysRestricted m = true) :
    allKeysRestricted (managerLoadSpots loaded) = true ∧
    allKeysRestricted (createSpot src m spotId x y).2 = true ∧
    allKeysRestricted (moveSpot src m spotId x y).2 = true ∧
    allKeysRestricted (deleteSpot m spotId).2 = true :=
  ⟨managerLoadSpots_keys loaded [] rfl, createSpot_keys src m spotId x y h,
   moveSpot_keys src m spotId x y h, deleteSpot_keys m spotId h⟩

/-- Witness for C8 at a concrete loaded list (one in-range id, one
out-of-range id) and the concrete five-spot registry. -/
theorem c8_keys_always_restricted_witness :
    allKeysRestricted (managerLoadSpots [demoSpot 1, demoSpot 9]) = true ∧
    allKeysRestricted (createSpot demoSource demoMap5 "3" 10 10).2 = true ∧
    allKeysRestricted (moveSpot demoSource demoMap5 "3" 10 10).2 = true ∧
    allKeysRestricted (deleteSpot demoMap5 "3").2 = true :=
  c8_keys_always_restricted demoSource [demoSpot 1, demoSpot 9] demoMap5
    "3" 10 10 (by decide)

theorem length_eq_mapErase_succ (m : SpotMap) (k : String)
    (v : MeasurementSpot) (h : mapFind m k = some v) :
    m.length = (mapErase m k).length + 1 := by
  induction m with
  | nil => simp [mapFind] at h
  | cons hd tl ih =>
    obtain ⟨k0, w⟩ := hd
    by_cases hk : k0 = k
    · simp [mapErase, hk]
    · simp only [mapFind, if_neg hk] at h
      simp only [mapErase, if_neg hk, List.length_cons]
      rw [ih h]

/-- Claim C9: spotExists is true only for a stored spot that is enabled and
ACTIVE; a spot present in the map but not ready is treated as nonexistent
by spotExists, moveSpot, deleteSpot and getSpotTemperature, yet it still
counts in getActiveSpotCount and hence toward isMaxSpotsReached. -/
theorem c9_not_ready_counts_toward_capacity (src : SourceModel) (m : SpotMap)
    (spotId k : String) (s s2 : MeasurementSpot) (x y : Int)
    (hfind : mapFind m spotId = some s) (hnr : s.is_ready = false)
    (hk : spotExists m k = true) (hfind2 : mapFind m k = some s2) :
    spotExists m spotId = false ∧
    moveSpot src m spotId x y = (false, m) ∧
    deleteSpot m spotId = (false, m) ∧
    getSpotTemperature src m spotId = none ∧
    getActiveSpotCount m = getActiveSpotCount (mapErase m spotId) + 1 ∧
    isMaxSpotsReached m
      = decide (getActiveSpotCount (mapErase m spotId) + 1 ≥ MAX_SPOTS) ∧
    s2.enabled = true ∧ s2.state = SpotState.ACTIVE := by
  have hex : spotExists m spotId = false := by
    simp [spotExists, hfind, hnr]
  have hlen : m.length = (mapErase m spotId).length + 1 :=
    length_eq_mapErase_succ m spotId s hfind
  have hs2 : s2.is_ready = true := by
    simpa [spotExists, hfind2] using hk
  rw [MeasurementSpot.is_ready, Bool.and_eq_true, beq_iff_eq] at hs2
  refine ⟨hex, ?_, ?_, ?_, ?_, ?_, hs2.1, hs2.2⟩
  · simp [moveSpot, hex]
  · simp [deleteSpot, hex]
  · simp [getSpotTemperature, hex]
  · unfold getActiveSpotCount
    exact hlen
  · unfold isMaxSpotsReached getActiveSpotCount
    rw [hlen]

/-- A stored spot that is present but not ready (state INACTIVE). -/
def demoInactiveSpot : MeasurementSpot :=
  { demoSpot 1 with state := SpotState.INACTIVE }

/-- Witness for C9: a registry holding an inactive spot "1" and an active
spot "2". -/
theorem c9_not_ready_counts_toward_capacity_witness :
    spotExists [("1", demoInactiveSpot), ("2", demoSpot 2)] "1" = false ∧
    moveSpot demoSource [("1", demoInactiveSpot), ("2", demoSpot 2)] "1" 10 10
      = (false, [("1", demoInactiveSpot), ("2", demoSpot 2)]) ∧
    deleteSpot [("1", demoInactiveSpot), ("2", demoSpot 2)] "1"
      = (false, [("1", demoInactiveSpot), ("2", demoSpot 2)]) ∧
    getSpotTemperature demoSource [("1", demoInactiveSpot), ("2", demoSpot 2)] "1"
      = none ∧
    getActiveSpotCount [("1", demoInactiveSpot), ("2", demoSpot 2)]
      = getActiveSpotCount
          (mapErase [("1", demoInactiveSpot), ("2", demoSpot 2)] "1") + 1 ∧
    isMaxSpotsReached [("1", demoInactiveSpot), ("2", demoSpot 2)]
      = decide (getActiveSpotCount
          (mapErase [("1", demoInactiveSpot), ("2", demoSpot 2)] "1") + 1
          ≥ MAX_SPOTS) ∧
    (demoSpot 2).enabled = true ∧ (demoSpot 2).state = SpotState.ACTIVE :=
  c9_not_ready_counts_toward_capacity demoSource
    [("1", demoInactiveSpot), ("2", demoSpot 2)] "1" "2"
    demoInactiveSpot (demoSpot 2) 10 10 rfl rfl (by decide) rfl

end TBClient
